import Mathlib

/-!
Verification of the BookAI recommendation system.

The development shallowly embeds two parts of the repository:

1. the React / vanilla-JS frontend (chat widget, API client, book modal),
   translated directly from the JavaScript sources; and
2. the backend query-resolution pipeline (intent classifier, retrieval
   waterfall, narrator, turn handler), whose Python sources are not part of
   the checked-in tree; those components are modelled from the design
   specification, with each such definition marked in its doc comment.

String operations are implemented over character lists so that every
definition is executable and kernel-reducible on concrete inputs.
-/

namespace BookRec

/-! ## String helpers (kernel-reducible counterparts of JS string methods) -/

/-- Character-list trim used to model the JavaScript `String.prototype.trim`. -/
def trimChars (l : List Char) : List Char :=
  ((l.dropWhile Char.isWhitespace).reverse.dropWhile Char.isWhitespace).reverse

/-- JS-style trim on strings. -/
def jsTrim (s : String) : String := ⟨trimChars s.data⟩

/-- ASCII lower-casing of a character, modelling Python `str.lower` /
JS `toLowerCase` on the ASCII range used by the catalog. -/
def lowChar (c : Char) : Char :=
  if 65 ≤ c.toNat ∧ c.toNat ≤ 90 then Char.ofNat (c.toNat + 32) else c

/-- ASCII lower-casing of a string. -/
def lowerStr (s : String) : String := ⟨s.data.map lowChar⟩

/-- Does the second list occur as a leading segment of the first argument list?
Auxiliary for the substring test. -/
def beginsWith : List Char → List Char → Bool
  | [], _ => true
  | _ :: _, [] => false
  | a :: as, b :: bs => a == b && beginsWith as bs

/-- Does `needle` occur contiguously inside the haystack list? -/
def subListOf (needle : List Char) : List Char → Bool
  | [] => beginsWith needle []
  | c :: rest => beginsWith needle (c :: rest) || subListOf needle rest

/-- Substring test on strings: `strContains hay needle` models
Python `needle in hay` and JS `hay.includes(needle)`. -/
def strContains (hay needle : String) : Bool := subListOf needle.data hay.data

/-- Whitespace-separated word splitting, used for keyword token matching. -/
def splitWords (l : List Char) : List (List Char) :=
  match l with
  | [] => []
  | c :: rest =>
    if c.isWhitespace then splitWords rest
    else
      match splitWords rest with
      | [] => [[c]]
      | w :: ws => if rest.head?.any Char.isWhitespace then [c] :: w :: ws else (c :: w) :: ws

/-- The apostrophe character, spelled via its code point. -/
def apos : String := String.singleton (Char.ofNat 39)

/-- JS truthiness of a possibly-missing string (`undefined`, `null` and the
empty string are falsy). -/
def optTruthy : Option String → Bool
  | none => false
  | some s => !(s == "")

/-- JS `a || b` applied to a possibly-missing string with a string default. -/
def jsOr (o : Option String) (d : String) : String :=
  match o with
  | some s => if s == "" then d else s
  | none => d

/-! ## Frontend data model

Book values as they circulate in the React frontend; every field the
components read may be missing, matching the JS objects. -/

/-- A book record as consumed by the frontend components. -/
structure FEBook where
  id : Option String
  title : String
  author : String
  description : Option String
  genre : Option String
  rating : Option ℚ
  cover_url : Option String
  explanation : Option String
deriving DecidableEq

/-- The JSON body of a successful `/chat` response, as read by the widgets. -/
structure ChatResponse where
  message : Option String
  recommendations : List FEBook
  query_understood : Bool
  session_id : Option String
  book_not_found : Option String
  error_message : Option String
deriving DecidableEq

/-- Who authored a chat bubble. -/
inductive MsgType
  | user
  | bot
deriving DecidableEq

/-- One entry of the conversation state (`messages` in ChatWidget, the message
DOM list in the vanilla frontend). -/
structure ChatMessage where
  ty : MsgType
  content : String
  books : List FEBook
  hasError : Bool
deriving DecidableEq

/-! ## ChatWidget (React, src/unnamed/part_002) -/

/-- Default bot text when the response carries no message. -/
def chatDefaultText : String := "Here are some recommendations:"

/-- The book-not-found interpolation of ChatWidget.sendMessage (part_002
line 44). -/
def chatNotFoundText (bk rest : String) : String :=
  "I couldn" ++ apos ++ "t find \"" ++ bk ++ "\" in my database, but here" ++ apos ++
    "s what I know about it. " ++ rest

/-- The fixed text of the ChatWidget catch branch (part_002 line 67). -/
def chatCatchText : String :=
  "Hmm, I had a little trouble there. Let me try again - just rephrase your request!"

/-- Content of the bot bubble built from a successful response (part_002
lines 39 to 50). -/
def botContent (data : ChatResponse) : String :=
  let base := jsOr data.message chatDefaultText
  match data.book_not_found with
  | some bk => chatNotFoundText bk base
  | none => base

/-- The bot message appended on a successful response (part_002 lines 52
to 60). -/
def botMessageOf (data : ChatResponse) : ChatMessage :=
  { ty := .bot, content := botContent data, books := data.recommendations,
    hasError := optTruthy data.error_message }

/-- The user message appended before the request is sent. -/
def userMessageOf (text : String) : ChatMessage :=
  { ty := .user, content := text, books := [], hasError := false }

/-- ChatWidget.sendMessage (part_002 lines 25 to 73): given the input box
value, the current message list and the outcome of the transport call,
return the resulting message list and whether a chat request was issued.
The guard at line 26 returns before any state change when the trimmed
input is empty. -/
def sendMessage (input : String) (msgs : List ChatMessage)
    (transport : Except Unit ChatResponse) : List ChatMessage × Bool :=
  if jsTrim input = "" then (msgs, false)
  else
    let m := jsTrim input
    match transport with
    | .ok data => (msgs ++ [userMessageOf m, botMessageOf data], true)
    | .error _ =>
      (msgs ++ [userMessageOf m,
        { ty := .bot, content := chatCatchText, books := [], hasError := false }], true)

/-- Book cards rendered inside a bot bubble (part_002 lines 134 to 137):
rendering is guarded by a non-empty list and applies `slice(0, 5)`. -/
def renderChatBooks (books : List FEBook) : List FEBook :=
  if books.length > 0 then books.take 5 else []

/-! ## Vanilla frontend chat (src/unnamed/part_010) -/

/-- The fixed text of the vanilla catch branch (part_010 line 734). -/
def vanillaCatchText : String := "Sorry, I encountered an error. Please try again."

/-- The bot DOM node built from a successful response (part_010 lines 704
to 726); cards are appended for every recommendation. -/
def vanillaBotMessage (resp : ChatResponse) : ChatMessage :=
  { ty := .bot, content := jsOr resp.message chatDefaultText,
    books := if resp.recommendations.length > 0 then resp.recommendations else [],
    hasError := false }

/-- sendChatMessage (part_010 lines 671 to 737): appends the user bubble,
then either the bot bubble from the response or the fixed error bubble.
The transient typing indicator is appended and removed on both paths, so
it does not appear in the final DOM state. -/
def sendChatMessage (message : String) (dom : List ChatMessage)
    (transport : Except Unit ChatResponse) : List ChatMessage :=
  let dom1 := dom ++ [userMessageOf message]
  match transport with
  | .ok resp => dom1 ++ [vanillaBotMessage resp]
  | .error _ =>
    dom1 ++ [{ ty := .bot, content := vanillaCatchText, books := [], hasError := false }]

/-- The chat form submit listener (part_010 lines 634 to 641): trims the
input and only sends when the result is non-empty. -/
def chatFormSubmit (inputVal : String) (dom : List ChatMessage)
    (transport : Except Unit ChatResponse) : List ChatMessage × Bool :=
  let message := jsTrim inputVal
  if message = "" then (dom, false)
  else (sendChatMessage message dom transport, true)

/-! ## API client (src/frontend-react/src/api.js, two versions) -/

/-- Request body built by the first version of chatAPI.send (api.js lines 51
to 59): no personality field; the persona only selects between two
emotional-context constants. -/
structure ChatBodyV1 where
  message : String
  user_id : Option Nat
  preferences : Option Unit
  emotional_context : String
deriving DecidableEq

/-- chatAPI.send, first version (api.js lines 51 to 59). -/
def chatSendV1 (message : String) (userId : Option Nat) (personality : String) :
    ChatBodyV1 :=
  { message := message, user_id := userId, preferences := none,
    emotional_context := if personality = "friendly" then "casual" else "professional" }

/-- Request body built by the second version of chatAPI.send (api.js lines
129 to 138): carries the personality field. -/
structure ChatBodyV2 where
  message : String
  user_id : Option Nat
  personality : String
  preferences : Option Unit
  emotional_context : Option String
deriving DecidableEq

/-- chatAPI.send, second version (api.js lines 129 to 138). -/
def chatSendV2 (message : String) (userId : Option Nat) (personality : String) :
    ChatBodyV2 :=
  { message := message, user_id := userId, personality := personality,
    preferences := none, emotional_context := none }

/-! ## BookModal (src/unnamed/part_001) -/

/-- The guard of the BookModal effect (part_001 line 20): the stored
description is kept only when it is truthy and longer than 50 characters. -/
def modalHasLongDesc (b : FEBook) : Bool :=
  match b.description with
  | none => false
  | some d => decide (d ≠ "" ∧ 50 < d.length)

/-- Whether opening the modal for `b` issues a `booksAPI.getDescription`
request: the effect calls fetchDescription (part_001 line 25), which bails
out on a falsy book id (part_001 line 35). -/
def modalFetchIssued (b : FEBook) : Bool :=
  if modalHasLongDesc b then false else optTruthy b.id

/-- The description state set synchronously by the effect (part_001 lines 20
to 26): the stored description when long enough, otherwise cleared while the
fetch is pending. -/
def modalInitialDescription (b : FEBook) : String :=
  if modalHasLongDesc b then b.description.getD "" else ""

/-- The description state produced by fetchDescription from the request
outcome (part_001 lines 38 to 50). -/
def fetchDescriptionResult (resp : Except Unit (Option String)) : String :=
  match resp with
  | .ok d => if optTruthy d then d.getD "" else "Description unavailable."
  | .error _ => "Description unavailable at this time."

/-- The fetch condition exactly as the claim words it: stored description
absent or of length at most 50. Stated from the claim for comparison with
`modalFetchIssued`, which is translated from the component. -/
def claimNeedsFetch (b : FEBook) : Bool :=
  match b.description with
  | none => true
  | some d => decide (d.length ≤ 50)

/-- A book value with no id and no description, as can reach the modal from
a chat recommendation whose `book_id` and `id` are both missing. -/
def bookNoId : FEBook :=
  { id := none, title := "Dune", author := "Frank Herbert", description := none,
    genre := none, rating := none, cover_url := none, explanation := none }

/-- A book value with a truthy id and a description longer than 50
characters. -/
def bookLongDesc : FEBook :=
  { id := some "b1", title := "Atomic Habits", author := "James Clear",
    description := some "An easy and proven way to build good habits and break bad ones.",
    genre := some "Self-help", rating := none, cover_url := none, explanation := none }

/-! ## Backend pipeline

The Python backend (chat.py, retrieval.py, reranking.py, external_search.py)
is not part of the checked-in tree; only its design documentation is. The
definitions below are therefore modelled from the specification, with the
documented code excerpts as corroboration. External collaborators (embedding
provider, semantic index, external metadata source, language-generation
collaborator) appear as function parameters of the environment, matching the
narrow contracts of the spec. -/

/-- Modelled from the spec: provenance flag of a persisted book (missing
backend book model). -/
inductive Provenance
  | sourced_locally
  | fetched_just_in_time
deriving DecidableEq

/-- Modelled from the spec: the backend Book record (missing backend
models/book.py). Title and author are non-empty once persisted; rating,
cover, year and external identifier are nullable. -/
structure Book where
  id : String
  title : String
  author : String
  description : String
  genre : String
  rating : Option ℚ
  cover_url : Option String
  year_published : Option Int
  isbn : Option String
  provenance : Provenance
deriving DecidableEq

/-- Modelled from the spec: the QueryIntent produced once per turn by the
intent classifier (missing analyze_query in chat.py). -/
structure QueryIntent where
  raw : String
  needs_book_search : Bool
  is_greeting : Bool
  is_small_talk : Bool
  specific_book : Option String
  optimized_query : String
  emotional_context : String
deriving DecidableEq

/-- Modelled from the spec: the fixed-shape structured result the
language-generation collaborator returns for intent classification. -/
structure IntentJson where
  needs_book_search : Bool
  is_greeting : Bool
  is_small_talk : Bool
  specific_book_requested : Option String
  emotional_context : String
  optimized_query : String
deriving DecidableEq

/-- Modelled from the spec: the strategy tier that produced a candidate. -/
inductive Tier
  | specific_local
  | jit_external
  | vector
  | keyword
deriving DecidableEq

/-- Modelled from the spec: a retrieval candidate, a book with its score and
producing tier. -/
structure RetrievalCandidate where
  book : Book
  score : ℚ
  tier : Tier
deriving DecidableEq

/-- Modelled from the spec: the structured narration result of the
language-generation collaborator, a preamble plus pairs of book id and
explanation; it may drop, fabricate or reorder entries. -/
structure NarratorJson where
  preamble : String
  entries : List (String × String)
deriving DecidableEq

/-- Modelled from the spec: the pipeline environment, the Catalog Store
contents plus the external collaborators at their contract boundary. A
`none` from the intent or narrator collaborator stands for an unavailable
call or malformed structured output; an `Except.error` from the embedding
provider stands for an EmbeddingError. -/
structure PipelineEnv where
  store : List Book
  external : String → Option Book
  embed : String → Except Unit (List ℚ)
  indexQuery : List ℚ → Nat → List (String × ℚ)
  intentLLM : String → Option IntentJson
  narratorLLM : List RetrievalCandidate → Option NarratorJson
  topK : Nat
  simFloor : ℚ

/-- Modelled from the spec: the only error the turn handler may raise. -/
inductive TurnError
  | invalidInput
deriving DecidableEq

/-- Modelled from the spec: the ChatTurnResult returned by handle_turn,
message plus explained candidates plus the soft notices. -/
structure ChatTurnResult where
  message : String
  explained : List (Book × String)
  query_understood : Bool
  book_not_found : Option String
  error_message : Option String
deriving DecidableEq

/-- Modelled from the spec: the persona registry of reranking.py, a static
map from persona id to tone directive. -/
def PERSONAS : List (String × String) :=
  [("friendly", "You are a warm, helpful librarian."),
   ("sarcastic", "You are a witty, sarcastic librarian.")]

/-- Modelled from the spec: persona lookup with fallback to the default
persona on an unknown id. -/
def personaDirective (pid : String) : String :=
  (List.lookup pid PERSONAS).getD ((List.lookup "friendly" PERSONAS).getD "")

/-- Modelled from the spec: the QueryIntent built from a well-formed
classifier result. -/
def intentFromJson (message : String) (j : IntentJson) : QueryIntent :=
  { raw := message, needs_book_search := j.needs_book_search,
    is_greeting := j.is_greeting, is_small_talk := j.is_small_talk,
    specific_book := j.specific_book_requested,
    optimized_query := j.optimized_query,
    emotional_context := j.emotional_context }

/-- Modelled from the spec: the fail-soft default QueryIntent synthesized
when the language-generation collaborator is unavailable or malformed: a
book search is assumed and the optimized phrase is the raw message. -/
def defaultIntent (message : String) : QueryIntent :=
  { raw := message, needs_book_search := true, is_greeting := false,
    is_small_talk := false, specific_book := none,
    optimized_query := message, emotional_context := "" }

/-- Modelled from the spec: the intent classifier (missing analyze_query in
chat.py). An empty message is InvalidInput; a collaborator failure is
recovered with the fail-soft default. -/
def classify (env : PipelineEnv) (message : String) (_persona : String) :
    Except TurnError QueryIntent :=
  if message = "" then .error .invalidInput
  else
    match env.intentLLM message with
    | some j => .ok (intentFromJson message j)
    | none => .ok (defaultIntent message)

/-- Modelled from the spec: case-insensitive substring title match against
the Catalog Store, as in the documented excerpt of chat.py
(`specific_book.lower() in b.title.lower()`). -/
def fuzzyTitleMatch (store : List Book) (name : String) : List Book :=
  store.filter (fun b => strContains (lowerStr b.title) (lowerStr name))

/-- Modelled from the spec: duplicate detection before insert, by id or by
matching external identifier. -/
def sameIdentity (a b : Book) : Bool :=
  a.id == b.id ||
    (match a.isbn, b.isbn with
     | some x, some y => x == y
     | _, _ => false)

/-- Modelled from the spec: Catalog Store insert, idempotent on a duplicate
record. -/
def insertBook (store : List Book) (b : Book) : List Book :=
  if store.any (fun c => sameIdentity c b) then store else store ++ [b]

/-- Modelled from the spec: normalization of an externally fetched book,
stamping the just-in-time provenance. -/
def jitNormalize (b : Book) : Book := { b with provenance := .fetched_just_in_time }

/-- Modelled from the spec: the text a keyword query matches against. -/
def keywordText (b : Book) : String :=
  lowerStr (b.title ++ " " ++ b.author ++ " " ++ b.genre ++ " " ++ b.description)

/-- Modelled from the spec: the keyword fallback query of the Catalog Store,
matching optimized-query terms against title, author, genre and description
in store order. -/
def keywordMatch (store : List Book) (query : String) : List Book :=
  let terms := splitWords (lowerStr query).data
  store.filter (fun b => terms.any (fun t => subListOf t (keywordText b).data))

/-- Insertion step of the descending sort by similarity score. -/
def sortInsert (c : RetrievalCandidate) : List RetrievalCandidate → List RetrievalCandidate
  | [] => [c]
  | d :: ds => if d.score < c.score then c :: d :: ds else d :: sortInsert c ds

/-- Descending stable sort by similarity score; ties keep their earlier
relative order, matching the store-insertion-order tie-break. -/
def sortByScoreDesc (l : List RetrievalCandidate) : List RetrievalCandidate :=
  l.foldr sortInsert []

/-- Modelled from the spec: waterfall tier 3, semantic vector search
(missing retrieval.py). An embedding failure yields zero results instead of
propagating, as in the documented try and except of chat.py; hits are
filtered by the similarity floor, resolved in the store and ordered by
descending similarity. -/
def tier3Candidates (env : PipelineEnv) (intent : QueryIntent) : List RetrievalCandidate :=
  match env.embed intent.optimized_query with
  | .error _ => []
  | .ok v =>
    let hits := (env.indexQuery v env.topK).filter (fun p => env.simFloor ≤ p.2)
    let cands := hits.filterMap (fun p =>
      (env.store.find? (fun b => b.id == p.1)).map
        (fun b => ({ book := b, score := p.2, tier := .vector } : RetrievalCandidate)))
    sortByScoreDesc cands

/-- Modelled from the spec: the outcome of one waterfall run, the ordered
candidates, the Catalog Store after the run, the pending book-not-found
notice and the books enqueued for embedding and index insertion. -/
structure RetrievalOutcome where
  candidates : List RetrievalCandidate
  store : List Book
  book_not_found : Option String
  enqueued : List Book
deriving DecidableEq

/-- Modelled from the spec: waterfall tiers 3 and 4 with the pending
book-not-found notice threaded through. -/
def laterTiers (env : PipelineEnv) (intent : QueryIntent) (nf : Option String) :
    RetrievalOutcome :=
  let t3 := tier3Candidates env intent
  if t3 = [] then
    { candidates := (keywordMatch env.store intent.optimized_query).map
        (fun b => { book := b, score := 0, tier := .keyword }),
      store := env.store, book_not_found := nf, enqueued := [] }
  else { candidates := t3, store := env.store, book_not_found := nf, enqueued := [] }

/-- Modelled from the spec: the Retrieval Orchestrator waterfall (missing
chat.py orchestration). Tier 1 is the fuzzy local lookup of a named book;
tier 2 the just-in-time external fetch that persists and enqueues the
fetched book; tiers 3 and 4 follow; an empty candidate list is the terminal
state. -/
def retrieve (env : PipelineEnv) (intent : QueryIntent) : RetrievalOutcome :=
  match intent.specific_book with
  | some name =>
    let ms := fuzzyTitleMatch env.store name
    if ms = [] then
      match env.external name with
      | some found =>
        let b := jitNormalize found
        { candidates := [{ book := b, score := 1, tier := .jit_external }],
          store := insertBook env.store b, book_not_found := none, enqueued := [b] }
      | none => laterTiers env intent (some name)
    else
      { candidates := ms.map (fun b => { book := b, score := 1, tier := .specific_local }),
        store := env.store, book_not_found := none, enqueued := [] }
  | none => laterTiers env intent none

/-- Modelled from the spec: the metadata-only explanation used when the
narration collaborator fails. -/
def metaExplanation (b : Book) : String :=
  "A " ++ b.genre ++ " book by " ++ b.author ++ "."

/-- Modelled from the spec: the template preamble of the narration fallback. -/
def templatePreamble : String := "Here" ++ apos ++ "s what I found:"

/-- Modelled from the spec: the Explanation Generator (rerank in
reranking.py, missing). The collaborator result is reconciled against the
immutable candidate list by id: the output walks the input candidates in
order, taking the collaborator explanation when one exists for that id and
the metadata fallback otherwise, so fabricated entries are discarded and
dropped entries are re-inserted in original order. -/
def explain (candidates : List RetrievalCandidate) (_persona : String)
    (_intent : QueryIntent) (llm : Option NarratorJson) :
    String × List (Book × String) :=
  match llm with
  | some j =>
    (j.preamble, candidates.map
      (fun c => (c.book, (List.lookup c.book.id j.entries).getD (metaExplanation c.book))))
  | none =>
    (templatePreamble, candidates.map (fun c => (c.book, metaExplanation c.book)))

/-- Modelled from the spec: the knowledge-fallback response of the terminal
waterfall state, referencing the persona and the original message. -/
def knowledgeFallback (persona : String) (intent : QueryIntent) : String :=
  "(" ++ personaDirective persona ++ ") I could not verify this in my catalog, " ++
    "but here is what I know about " ++ intent.raw ++
    ". Take it with a grain of salt."

/-- Modelled from the spec: the conversational reply for turns that need no
book search. -/
def smalltalkReply (persona : String) : String :=
  "(" ++ personaDirective persona ++ ") Happy to chat! Tell me what you are " ++
    "in the mood for and I will find you a book."

/-- Modelled from the spec: handle_turn, the single inbound operation
(missing chat.py endpoint). Returns the ChatTurnResult together with the
Catalog Store as it stands after the turn. Only an empty message is an
error; every collaborator failure is recovered by a fallback stage. -/
def handleTurn (env : PipelineEnv) (message : String) (personaId : String) :
    Except TurnError (ChatTurnResult × List Book) :=
  match classify env message personaId with
  | .error e => .error e
  | .ok intent =>
    if intent.needs_book_search then
      let out := retrieve env intent
      if out.candidates = [] then
        .ok ({ message := knowledgeFallback personaId intent, explained := [],
               query_understood := true, book_not_found := out.book_not_found,
               error_message := none }, out.store)
      else
        let gen := env.narratorLLM out.candidates
        let pe := explain out.candidates personaId intent gen
        .ok ({ message := pe.1, explained := pe.2, query_understood := true,
               book_not_found := out.book_not_found,
               error_message := if gen.isNone then some "generation degraded" else none },
             out.store)
    else
      .ok ({ message := smalltalkReply personaId, explained := [],
             query_understood := true, book_not_found := none,
             error_message := none }, env.store)

/-! ## Concrete inputs used to instantiate the claim theorems -/

/-- A catalog book for concrete runs. -/
def bShining : Book :=
  { id := "b7", title := "The Shining", author := "Stephen King",
    description := "A haunted hotel and a family in winter isolation.",
    genre := "Horror", rating := none, cover_url := none, year_published := none,
    isbn := none, provenance := .sourced_locally }

/-- The externally available book of the just-in-time scenario. -/
def bAtomic : Book :=
  { id := "g1", title := "Atomic Habits", author := "James Clear",
    description := "Tiny changes, remarkable results.", genre := "Self-help",
    rating := none, cover_url := none, year_published := none,
    isbn := some "9780735211292", provenance := .sourced_locally }

/-- A classifier result naming a specific book. -/
def jAtomic : IntentJson :=
  { needs_book_search := true, is_greeting := false, is_small_talk := false,
    specific_book_requested := some "Atomic Habits", emotional_context := "curious",
    optimized_query := "habit building" }

/-- A classifier result for a mood query with no named book. -/
def jMood : IntentJson :=
  { needs_book_search := true, is_greeting := false, is_small_talk := false,
    specific_book_requested := none, emotional_context := "spooky",
    optimized_query := "scary horror ghost" }

/-- Environment of the just-in-time scenario: empty catalog, the named book
available externally. -/
def envC1 : PipelineEnv :=
  { store := [], external := fun s => if s = "Atomic Habits" then some bAtomic else none,
    embed := fun _ => .error (), indexQuery := fun _ _ => [],
    intentLLM := fun _ => some jAtomic, narratorLLM := fun _ => none,
    topK := 5, simFloor := 0 }

/-- Environment whose embedding provider always fails. -/
def envC3 : PipelineEnv :=
  { store := [bShining], external := fun _ => none, embed := fun _ => .error (),
    indexQuery := fun _ _ => [], intentLLM := fun _ => some jMood,
    narratorLLM := fun _ => none, topK := 5, simFloor := 0 }

/-- Environment whose intent collaborator is unavailable. -/
def envC4 : PipelineEnv :=
  { store := [bShining], external := fun _ => none, embed := fun _ => .error (),
    indexQuery := fun _ _ => [], intentLLM := fun _ => none,
    narratorLLM := fun _ => none, topK := 5, simFloor := 0 }

/-- A chat response carrying a book-not-found notice and a partial error. -/
def respNotFound : ChatResponse :=
  { message := some "Here is what I know about it from general knowledge.",
    recommendations := [], query_understood := true, session_id := none,
    book_not_found := some "Atomic Habits",
    error_message := some "external lookup degraded" }

/-! ## Infrastructure lemmas -/

/-- A list occurs at the head of itself followed by anything. -/
theorem beginsWith_self_append (t s : List Char) : beginsWith t (t ++ s) = true := by
  induction t with
  | nil => simp [beginsWith]
  | cons a as ih => simp [beginsWith, ih]

/-- A needle occurs in a haystack that starts with it. -/
theorem subListOf_self_append (t s : List Char) : subListOf t (t ++ s) = true := by
  cases t with
  | nil => cases s <;> simp [subListOf, beginsWith]
  | cons a as =>
    have h : beginsWith (a :: as) ((a :: as) ++ s) = true := beginsWith_self_append (a :: as) s
    simp only [List.cons_append] at h
    simp [subListOf, h]

/-- A needle occurring in a suffix occurs in the whole list. -/
theorem subListOf_append_left (t rest : List Char) (h : subListOf t rest = true) :
    ∀ p : List Char, subListOf t (p ++ rest) = true := by
  intro p
  induction p with
  | nil => simpa using h
  | cons x xs ih => simp [subListOf, ih]

/-! ## Claim theorems -/

/-- C2: for every ordered candidate sequence passed to the Explanation
Generator, and every behaviour of the language-generation collaborator
(including dropping, fabricating or reordering entries, and outright
failure), the explained sequence consists of exactly the input books, hence
the same book ids, in exactly the input order. -/
theorem c2_narrator_preserves_candidates (candidates : List RetrievalCandidate)
    (persona : String) (intent : QueryIntent) (llm : Option NarratorJson) :
    (explain candidates persona intent llm).2.map Prod.fst =
      candidates.map (fun c => c.book) ∧
    (explain candidates persona intent llm).2.map (fun p => p.1.id) =
      candidates.map (fun c => c.book.id) := by
  cases llm <;> simp [explain]

/-- C9: a bot chat bubble renders exactly `min n 5` book cards, namely the
first five recommendations in their original order; recommendations beyond
the fifth are never displayed. -/
theorem c9_chat_renders_first_five (books : List FEBook) :
    (renderChatBooks books).length = min books.length 5 ∧
    ∀ i : Nat, (renderChatBooks books)[i]? = if i < 5 then books[i]? else none := by
  unfold renderChatBooks
  by_cases h : books.length > 0
  · rw [if_pos h]
    refine ⟨by rw [List.length_take]; omega, ?_⟩
    intro i
    exact List.getElem?_take
  · rw [if_neg h]
    have hb : books = [] := List.eq_nil_of_length_eq_zero (by omega)
    subst hb
    refine ⟨by simp, ?_⟩
    intro i
    simp

/-- C8: the first version of chatAPI.send builds request bodies that carry
no persona field at all, and two distinct selected personas (sarcastic and
professional) yield byte-identical bodies; the second, fixed version sends
the persona, and the same two personas yield bodies differing in the
personality field. This evaluates both versions at the failing input of the
documented settings-not-persisting bug. -/
theorem c8_send_v1_drops_persona :
    chatSendV1 "recommend a book" (some 1) "sarcastic" =
      chatSendV1 "recommend a book" (some 1) "professional" ∧
    chatSendV2 "recommend a book" (some 1) "sarcastic" ≠
      chatSendV2 "recommend a book" (some 1) "professional" ∧
    (chatSendV2 "recommend a book" (some 1) "sarcastic").personality = "sarcastic" := by
  refine ⟨?_, ?_, rfl⟩
  · decide
  · decide

/-- C4: when the intent classifier collaborator is unavailable or returns
malformed structure, classify still returns the fail-soft QueryIntent whose
search flag is true and whose optimized phrase is the raw message, and the
turn handler still completes. -/
theorem c4_classifier_fail_soft (env : PipelineEnv) (message persona : String)
    (hmsg : message ≠ "") (hllm : env.intentLLM message = none) :
    classify env message persona = .ok (defaultIntent message) ∧
    (defaultIntent message).needs_book_search = true ∧
    (defaultIntent message).optimized_query = message ∧
    ∃ v, handleTurn env message persona = .ok v := by
  have hc : classify env message persona = .ok (defaultIntent message) := by
    simp [classify, hmsg, hllm]
  refine ⟨hc, rfl, rfl, ?_⟩
  unfold handleTurn
  rw [hc]
  dsimp only
  split <;> (try split) <;> exact ⟨_, rfl⟩

/-- C5: an input that is empty or whitespace-only issues no chat request and
leaves the conversation state unchanged, in both the React ChatWidget and
the vanilla chat form. -/
theorem c5_blank_input_no_request (input : String) (msgs dom : List ChatMessage)
    (t₁ t₂ : Except Unit ChatResponse) (h : jsTrim input = "") :
    sendMessage input msgs t₁ = (msgs, false) ∧
    chatFormSubmit input dom t₂ = (dom, false) := by
  constructor
  · simp [sendMessage, h]
  · simp [chatFormSubmit, h]

/-- C6: when the chat transport itself fails, the only user-visible failure
output is a single fixed bot message with no book list and no error code, in
both the React ChatWidget and the vanilla frontend. -/
theorem c6_transport_failure_single_message (input message : String)
    (msgs dom : List ChatMessage) (h : jsTrim input ≠ "") :
    sendMessage input msgs (.error ()) =
      (msgs ++ [userMessageOf (jsTrim input),
        { ty := .bot, content := chatCatchText, books := [], hasError := false }], true) ∧
    sendChatMessage message dom (.error ()) =
      dom ++ [userMessageOf message,
        { ty := .bot, content := vanillaCatchText, books := [], hasError := false }] := by
  constructor
  · simp [sendMessage, h]
  · simp [sendChatMessage]

/-- C7: when the response carries a book-not-found notice, the displayed bot
content is the fixed sentence with the asked-for book interpolated (so the
content names that book as a substring), the notice is conveyed as an
ordinary bot message, and the error note never changes the displayed content
or book list. -/
theorem c7_not_found_as_content (data : ChatResponse) (bk : String)
    (h : data.book_not_found = some bk) :
    botContent data = chatNotFoundText bk (jsOr data.message chatDefaultText) ∧
    strContains (botContent data) bk = true ∧
    (∀ e : Option String,
      botContent { data with error_message := e } = botContent data ∧
      (botMessageOf { data with error_message := e }).content = (botMessageOf data).content ∧
      (botMessageOf { data with error_message := e }).books = (botMessageOf data).books) ∧
    (botMessageOf data).ty = MsgType.bot := by
  have hb : botContent data = chatNotFoundText bk (jsOr data.message chatDefaultText) := by
    simp [botContent, h]
  refine ⟨hb, ?_, fun e => ⟨rfl, rfl, rfl⟩, rfl⟩
  rw [hb]
  unfold strContains chatNotFoundText
  simp only [String.data_append, List.append_assoc]
  apply subListOf_append_left
  apply subListOf_append_left
  apply subListOf_append_left
  exact subListOf_self_append _ _

/-- C10, counterexample: a book whose stored description is absent but whose
id is falsy issues no description fetch, although the claim as stated
requires one. -/
theorem c10_modal_counterexample :
    modalFetchIssued bookNoId = false ∧ claimNeedsFetch bookNoId = true := by
  decide

/-- C10, amended: the modal issues a description fetch if and only if the
stored description is absent or at most 50 characters long and the book id
is truthy; when the stored description is long enough it is displayed
unchanged and no fetch occurs; a failed fetch yields the fixed unavailable
placeholder. -/
theorem c10_fetch_rule_with_id_guard (b : FEBook) :
    modalFetchIssued b = (claimNeedsFetch b && optTruthy b.id) ∧
    (claimNeedsFetch b = false →
      modalFetchIssued b = false ∧ modalInitialDescription b = b.description.getD "") ∧
    fetchDescriptionResult (.error ()) = "Description unavailable at this time." := by
  refine ⟨?_, ?_, rfl⟩
  · unfold modalFetchIssued modalHasLongDesc claimNeedsFetch
    cases hd : b.description with
    | none => simp
    | some d =>
      by_cases h50 : 50 < d.length
      · have hne : d ≠ "" := by
          intro he
          subst he
          exact absurd h50 (by decide)
        simp [h50, hne, Nat.not_le.mpr h50]
      · simp [h50, Nat.le_of_not_lt h50]
  · intro hcl
    unfold claimNeedsFetch at hcl
    cases hd : b.description with
    | none => rw [hd] at hcl; cases hcl
    | some d =>
      rw [hd] at hcl
      have h50 : 50 < d.length := by
        by_contra hx
        have hle : d.length ≤ 50 := Nat.le_of_not_lt hx
        simp [hle] at hcl
      have hne : d ≠ "" := by
        intro he
        subst he
        exact absurd h50 (by decide)
      constructor
      · unfold modalFetchIssued modalHasLongDesc
        rw [hd]
        simp [h50, hne]
      · unfold modalInitialDescription modalHasLongDesc
        rw [hd]
        simp [h50, hne]

/-- C3: if the embedding provider fails on every call, tier 3 of the
waterfall yields zero candidates instead of propagating the failure, the
waterfall falls through to the tier-4 keyword fallback, and the turn handler
still returns a result for any non-empty message. -/
theorem c3_embedding_failure_degrades (env : PipelineEnv) (message personaId : String)
    (hembed : ∀ s, env.embed s = .error ())
    (hmsg : message ≠ "") :
    (∀ intent, tier3Candidates env intent = []) ∧
    (∀ intent nf, laterTiers env intent nf =
      { candidates := (keywordMatch env.store intent.optimized_query).map
          (fun b => { book := b, score := 0, tier := .keyword }),
        store := env.store, book_not_found := nf, enqueued := [] }) ∧
    ∃ v, handleTurn env message personaId = .ok v := by
  have h3 : ∀ intent, tier3Candidates env intent = [] := by
    intro intent
    simp [tier3Candidates, hembed]
  refine ⟨h3, ?_, ?_⟩
  · intro intent nf
    simp [laterTiers, h3]
  · unfold handleTurn
    cases hllm : env.intentLLM message with
    | none =>
      have hc : classify env message personaId = .ok (defaultIntent message) := by
        simp [classify, hmsg, hllm]
      rw [hc]
      dsimp only
      split <;> (try split) <;> exact ⟨_, rfl⟩
    | some j =>
      have hc : classify env message personaId = .ok (intentFromJson message j) := by
        simp [classify, hmsg, hllm]
      rw [hc]
      dsimp only
      split <;> (try split) <;> exact ⟨_, rfl⟩

/-- C1: for a turn naming a book with no fuzzy match in the Catalog Store
(and no duplicate record of it) that the External Metadata Source finds,
tier 2 of the waterfall runs: the candidate list is exactly that one book
with just-in-time provenance, and the book is persisted in the Catalog Store
after the turn. -/
theorem c1_jit_fetch_persists (env : PipelineEnv) (message personaId name : String)
    (j : IntentJson) (b : Book)
    (hmsg : message ≠ "")
    (hllm : env.intentLLM message = some j)
    (hsearch : j.needs_book_search = true)
    (hname : j.specific_book_requested = some name)
    (hlocal : fuzzyTitleMatch env.store name = [])
    (hext : env.external name = some b)
    (hdup : ∀ c ∈ env.store, sameIdentity c (jitNormalize b) = false) :
    (retrieve env (intentFromJson message j)).candidates =
      [{ book := jitNormalize b, score := 1, tier := .jit_external }] ∧
    (jitNormalize b).provenance = .fetched_just_in_time ∧
    (retrieve env (intentFromJson message j)).store = env.store ++ [jitNormalize b] ∧
    (retrieve env (intentFromJson message j)).enqueued = [jitNormalize b] ∧
    ∃ r, handleTurn env message personaId = .ok (r, env.store ++ [jitNormalize b]) ∧
      r.explained.map Prod.fst = [jitNormalize b] ∧
      jitNormalize b ∈ env.store ++ [jitNormalize b] := by
  have hins : insertBook env.store (jitNormalize b) = env.store ++ [jitNormalize b] := by
    unfold insertBook
    rw [if_neg]
    intro hany
    rcases List.any_eq_true.mp hany with ⟨c, hc, hp⟩
    rw [hdup c hc] at hp
    cases hp
  have hret : retrieve env (intentFromJson message j) =
      { candidates := [{ book := jitNormalize b, score := 1, tier := .jit_external }],
        store := env.store ++ [jitNormalize b], book_not_found := none,
        enqueued := [jitNormalize b] } := by
    unfold retrieve
    simp [intentFromJson, hname, hlocal, hext, hins]
  have hcl : classify env message personaId = .ok (intentFromJson message j) := by
    simp [classify, hmsg, hllm]
  refine ⟨by rw [hret], rfl, by rw [hret], by rw [hret], ?_⟩
  unfold handleTurn
  rw [hcl]
  dsimp only
  have hif : (intentFromJson message j).needs_book_search = true := hsearch
  rw [hif]
  rw [if_pos rfl]
  rw [hret]
  dsimp only
  rw [if_neg (by simp)]
  refine ⟨_, rfl, ?_, by simp⟩
  cases hg : env.narratorLLM [{ book := jitNormalize b, score := 1, tier := .jit_external }] <;>
    simp [explain]

/-! ## Witnesses: the claim theorems applied at concrete inputs -/

/-- Witness for C1 at a concrete environment and message. -/
theorem c1_jit_fetch_persists_witness :
    (retrieve envC1 (intentFromJson "I want Atomic Habits" jAtomic)).candidates =
      [{ book := jitNormalize bAtomic, score := 1, tier := .jit_external }] ∧
    ∃ r, handleTurn envC1 "I want Atomic Habits" "friendly" =
        .ok (r, envC1.store ++ [jitNormalize bAtomic]) ∧
      r.explained.map Prod.fst = [jitNormalize bAtomic] ∧
      jitNormalize bAtomic ∈ envC1.store ++ [jitNormalize bAtomic] :=
  ⟨(c1_jit_fetch_persists envC1 "I want Atomic Habits" "friendly" "Atomic Habits" jAtomic bAtomic
      (by decide) rfl rfl rfl rfl (by decide) (by simp [envC1])).1,
   (c1_jit_fetch_persists envC1 "I want Atomic Habits" "friendly" "Atomic Habits" jAtomic bAtomic
      (by decide) rfl rfl rfl rfl (by decide) (by simp [envC1])).2.2.2.2⟩

/-- Witness for C3 at a concrete environment and message. -/
theorem c3_embedding_failure_degrades_witness :
    tier3Candidates envC3 (intentFromJson "something scary" jMood) = [] ∧
    ∃ v, handleTurn envC3 "something scary" "friendly" = .ok v :=
  ⟨(c3_embedding_failure_degrades envC3 "something scary" "friendly" (fun _ => rfl)
      (by decide)).1 (intentFromJson "something scary" jMood),
   (c3_embedding_failure_degrades envC3 "something scary" "friendly" (fun _ => rfl)
      (by decide)).2.2⟩

/-- Witness for C4 at a concrete environment and message. -/
theorem c4_classifier_fail_soft_witness :
    classify envC4 "something uplifting" "friendly" =
      .ok (defaultIntent "something uplifting") ∧
    (defaultIntent "something uplifting").needs_book_search = true ∧
    (defaultIntent "something uplifting").optimized_query = "something uplifting" ∧
    ∃ v, handleTurn envC4 "something uplifting" "friendly" = .ok v :=
  c4_classifier_fail_soft envC4 "something uplifting" "friendly" (by decide) rfl

/-- Witness for C5 at a whitespace-only input. -/
theorem c5_blank_input_no_request_witness :
    sendMessage "   " [] (.error ()) = ([], false) ∧
    chatFormSubmit "   " [] (.error ()) = ([], false) :=
  c5_blank_input_no_request "   " [] [] (.error ()) (.error ()) (by decide)

/-- Witness for C6 at concrete non-blank inputs. -/
theorem c6_transport_failure_single_message_witness :
    sendMessage "hello" [] (.error ()) =
      ([] ++ [userMessageOf (jsTrim "hello"),
        { ty := .bot, content := chatCatchText, books := [], hasError := false }], true) ∧
    sendChatMessage "hi" [] (.error ()) =
      [] ++ [userMessageOf "hi",
        { ty := .bot, content := vanillaCatchText, books := [], hasError := false }] :=
  c6_transport_failure_single_message "hello" "hi" [] [] (by decide)

/-- Witness for C7 at a concrete response carrying a notice. -/
theorem c7_not_found_as_content_witness :
    botContent respNotFound =
      chatNotFoundText "Atomic Habits" (jsOr respNotFound.message chatDefaultText) ∧
    strContains (botContent respNotFound) "Atomic Habits" = true ∧
    botContent { respNotFound with error_message := none } = botContent respNotFound :=
  ⟨(c7_not_found_as_content respNotFound "Atomic Habits" rfl).1,
   (c7_not_found_as_content respNotFound "Atomic Habits" rfl).2.1,
   ((c7_not_found_as_content respNotFound "Atomic Habits" rfl).2.2.1 none).1⟩

/-- Witness for the amended C10 at a book with a long description. -/
theorem c10_fetch_rule_with_id_guard_witness :
    claimNeedsFetch bookLongDesc = false ∧
    modalFetchIssued bookLongDesc = false ∧
    modalInitialDescription bookLongDesc = bookLongDesc.description.getD "" :=
  ⟨by decide, (c10_fetch_rule_with_id_guard bookLongDesc).2.1 (by decide)⟩

end BookRec
